import Mathlib

/-!
Shallow embedding of the hotel-booking backend controllers
(`api/controllers/hotel.js`, `api/controllers/room.js`).

The persistence driver is Mongoose over MongoDB; we embed its documented
semantics for the calls the controllers make:
  * `Model.findById(id)` resolves to the document or to `null` when no
    document has that id (it does not reject for a well-formed missing id);
  * `Model.findByIdAndUpdate(id, u, {new:true})` applies `u` and resolves to
    the updated document, or resolves to `null` leaving the store unchanged
    when the id is missing (again no rejection);
  * `Model.findByIdAndDelete(id)` removes the document if present and
    resolves either way;
  * `Model.countDocuments(filter)` resolves to the number of matching
    documents;
  * `Model.find(filter)` resolves to the list of matching documents in
    storage order.
A driver call can also fail (network/store failure, a rejected promise);
handlers that the claims exercise under failure take explicit Boolean
failure oracles for their driver calls.

An Express handler finishes by calling `res.status(s).json(body)` and/or by
forwarding errors to `next(err)`; we record both: `HResult.errs` is the list
of errors forwarded to `next`, `HResult.resp` the response sent, if any.

JavaScript arithmetic in `getHotels` (`min | 1`, `max || 999`) is embedded
with explicit ToNumber / ToInt32 coercions; query-string values are decimal
integer literals, numbers, or absent, which covers every value the claims
mention.
-/

namespace Booking

/-- A Hotel document, with the fields the controllers read or write.
`rooms` is the ordered list of Room ids making up the hotel's inventory. -/
structure Hotel where
  hid : Nat
  name : String
  type : String
  city : String
  cheapestPrice : Int
  rooms : List Nat
  deriving Repr, DecidableEq

/-- A Room document; the controllers never inspect its payload fields. -/
structure Room where
  rid : Nat
  title : String
  price : Int
  deriving Repr, DecidableEq

/-- The document store: the two collections plus the id the driver hands to
the next inserted document (MongoDB generates fresh unique ids). -/
structure Store where
  hotels : List Hotel
  rooms : List Room
  nextId : Nat
  deriving Repr, DecidableEq

/-- The store with no documents. -/
def emptyStore : Store := ⟨[], [], 0⟩

/-- Ids of already stored Rooms are older than the id the driver will assign
next; holds for every store MongoDB actually produces. -/
def Store.freshIds (st : Store) : Prop :=
  ∀ r ∈ st.rooms, r.rid < st.nextId

instance (st : Store) : Decidable st.freshIds := by
  unfold Store.freshIds; infer_instance

/-- `Hotel.findById`: first stored Hotel with the id, else `none` (null). -/
def hotelFindById (st : Store) (id : Nat) : Option Hotel :=
  st.hotels.find? (fun h => h.hid == id)

/-- `Room.findById`: first stored Room with the id, else `none` (null). -/
def roomFindById (st : Store) (id : Nat) : Option Room :=
  st.rooms.find? (fun r => r.rid == id)

/-- `Hotel.countDocuments({city: c})`. -/
def countDocumentsByCity (st : Store) (c : String) : Nat :=
  (st.hotels.filter (fun h => h.city == c)).length

/-- `Hotel.countDocuments({type: t})`. -/
def countDocumentsByType (st : Store) (t : String) : Nat :=
  (st.hotels.filter (fun h => h.type == t)).length

/-- A value read from `req.query` or `req.params`: absent (`undefined`), a
string, or a number supplied directly. -/
inductive QueryVal where
  | undef
  | str (s : String)
  | num (n : Int)
  deriving Repr, DecidableEq

/-- Numeric value of a list of decimal digits. -/
def digitsVal (l : List Char) : Nat :=
  l.foldl (fun a c => a * 10 + (c.toNat - 48)) 0

/-- JavaScript `ToNumber` on the values above; `none` is NaN. The empty
string converts to 0; a (possibly negated) run of decimal digits converts to
its value; any other string is NaN. -/
def jsToNumber : QueryVal → Option Int
  | .undef => none
  | .num n => some n
  | .str s =>
    if s = "" then some 0
    else match s.data with
      | '-' :: rest =>
        if rest ≠ [] ∧ rest.all Char.isDigit then some (-(digitsVal rest : Int)) else none
      | l => if l.all Char.isDigit then some ((digitsVal l : Int)) else none

/-- JavaScript `ToInt32`: NaN becomes 0, numbers wrap into `[-2^31, 2^31)`. -/
def toInt32 : Option Int → Int
  | none => 0
  | some n =>
    let m := n % 4294967296
    if m < 2147483648 then m else m - 4294967296

/-- JavaScript `a | b` on two already-ToInt32 values: bitwise or of the
two's-complement 32-bit patterns, read back as a signed 32-bit integer. -/
def jsBitOr (a b : Int) : Int :=
  let r := (a % 4294967296).toNat ||| (b % 4294967296).toNat
  if r < 2147483648 then (r : Int) else (r : Int) - 4294967296

/-- JavaScript truthiness of a query value. -/
def jsTruthy : QueryVal → Bool
  | .undef => false
  | .num n => n != 0
  | .str s => s != ""

/-- Errors a handler can forward to `next`. `notFound` exists in the spec's
error taxonomy; no embedded handler ever produces it. -/
inductive HandlerErr where
  | persistenceFailure
  | castError
  | typeError
  | notFound
  deriving Repr, DecidableEq

/-- What an Express handler did: errors passed to `next`, and the response
(status code and JSON body) sent with `res`, if any. -/
structure HResult (α : Type) where
  errs : List HandlerErr
  resp : Option (Nat × α)
  deriving Repr, DecidableEq

/-- Lower price bound of `getHotels`: the source computes `min | 1`. -/
def getHotelsLowerBound (min : QueryVal) : Int :=
  jsBitOr (toInt32 (jsToNumber min)) 1

/-- Upper price bound of `getHotels`: the source computes `max || 999`, and
Mongoose then casts the value to a number for the `$lt` comparison; a
non-numeric string raises a CastError (`none`). -/
def getHotelsUpperBound (max : QueryVal) : Option Int :=
  if jsTruthy max then jsToNumber max else some 999

/-- `getHotels` (hotel.js): finds Hotels with
`cheapestPrice: { $gt: min | 1, $lt: max || 999 }` and sends them with
status 200; a cast failure goes to `next`. -/
def getHotels (st : Store) (min max : QueryVal) : HResult (List Hotel) :=
  match getHotelsUpperBound max with
  | none => ⟨[HandlerErr.castError], none⟩
  | some ub =>
    ⟨[], some (200, st.hotels.filter (fun h =>
      decide (getHotelsLowerBound min < h.cheapestPrice) &&
      decide (h.cheapestPrice < ub)))⟩

/-- `getHotel` (hotel.js): sends `Hotel.findById(id)` with status 200, null
body included. -/
def getHotel (st : Store) (id : Nat) : HResult (Option Hotel) :=
  ⟨[], some (200, hotelFindById st id)⟩

/-- A partial update payload for a Hotel (`$set` body). -/
structure HotelPatch where
  city : Option String
  cheapestPrice : Option Int
  deriving Repr, DecidableEq

/-- Apply a `$set` patch to a Hotel document. -/
def applyPatch (p : HotelPatch) (h : Hotel) : Hotel :=
  { h with
      city := p.city.getD h.city
      cheapestPrice := p.cheapestPrice.getD h.cheapestPrice }

/-- `updateHotel` (hotel.js): `Hotel.findByIdAndUpdate(id, {$set: body},
{new:true})`, sent with status 200 — the updated document, or null when the
id is missing. -/
def updateHotel (st : Store) (id : Nat) (p : HotelPatch) :
    Store × HResult (Option Hotel) :=
  let st1 : Store :=
    { st with hotels := st.hotels.map (fun h => if h.hid = id then applyPatch p h else h) }
  (st1, ⟨[], some (200, hotelFindById st1 id)⟩)

/-- `deleteHotel` (hotel.js): `Hotel.findByIdAndDelete(id)` then a fixed
success message, whether or not the id existed. -/
def deleteHotel (st : Store) (id : Nat) : Store × HResult String :=
  ({ st with hotels := st.hotels.filter (fun h => h.hid != id) },
   ⟨[], some (200, "Hotel has been deleted")⟩)

/-- `getRoom` (room.js): sends `Room.findById(id)` with status 200, null
body included. -/
def getRoom (st : Store) (id : Nat) : HResult (Option Room) :=
  ⟨[], some (200, roomFindById st id)⟩

/-- The request body of `createRoom`. -/
structure RoomBody where
  title : String
  price : Int
  deriving Repr, DecidableEq

/-- `new Room(body).save()`: the driver assigns the next fresh id and
appends the document; returns the new store and the saved Room. -/
def roomSave (st : Store) (b : RoomBody) : Store × Room :=
  let r : Room := ⟨st.nextId, b.title, b.price⟩
  ({ st with rooms := st.rooms ++ [r], nextId := st.nextId + 1 }, r)

/-- `Hotel.findByIdAndUpdate(hid, {$push: {rooms: rid}})`: appends `rid` to
the matching Hotel's `rooms`; no match leaves the store unchanged. -/
def hotelPushRoom (st : Store) (hid rid : Nat) : Store :=
  { st with hotels := st.hotels.map (fun h =>
      if h.hid = hid then { h with rooms := h.rooms ++ [rid] } else h) }

/-- `Hotel.findByIdAndUpdate(hid, {$pull: {rooms: rid}})`: removes every
occurrence of `rid` from the matching Hotel's `rooms`. -/
def hotelPullRoom (st : Store) (hid rid : Nat) : Store :=
  { st with hotels := st.hotels.map (fun h =>
      if h.hid = hid then { h with rooms := h.rooms.filter (fun x => x != rid) } else h) }

/-- `Room.findByIdAndDelete(rid)`. -/
def roomDelete (st : Store) (rid : Nat) : Store :=
  { st with rooms := st.rooms.filter (fun r => r.rid != rid) }

/-- `createRoom` (room.js): saves the Room; then tries the `$push` link
write, forwarding its failure to `next`; and in either case sends the saved
Room with status 200. `saveFails` / `pushFails` are the failure oracles of
the two driver calls. -/
def createRoom (st : Store) (hotelId : Nat) (b : RoomBody)
    (saveFails pushFails : Bool) : Store × HResult Room :=
  if saveFails then (st, ⟨[HandlerErr.persistenceFailure], none⟩)
  else
    let sv := roomSave st b
    if pushFails then (sv.1, ⟨[HandlerErr.persistenceFailure], some (200, sv.2)⟩)
    else (hotelPushRoom sv.1 hotelId sv.2.rid, ⟨[], some (200, sv.2)⟩)

/-- `deleteRoom` (room.js): deletes the Room; then tries the `$pull` unlink
write, forwarding its failure to `next`; and in either case sends the fixed
success message with status 200. -/
def deleteRoom (st : Store) (hotelId rid : Nat)
    (delFails pullFails : Bool) : Store × HResult String :=
  if delFails then (st, ⟨[HandlerErr.persistenceFailure], none⟩)
  else
    let st1 := roomDelete st rid
    if pullFails then (st1, ⟨[HandlerErr.persistenceFailure], some (200, "Room has been deleted")⟩)
    else (hotelPullRoom st1 hotelId rid, ⟨[], some (200, "Room has been deleted")⟩)

/-- `getHotelRooms` (hotel.js): looks the Hotel up, then resolves each id in
`hotel.rooms` with `Room.findById` under `Promise.all`, which keeps the
input order; a missing Hotel makes `hotel.rooms` throw a TypeError, caught
and forwarded to `next`. A dangling room id resolves to null. -/
def getHotelRooms (st : Store) (id : Nat) : HResult (List (Option Room)) :=
  match hotelFindById st id with
  | none => ⟨[HandlerErr.typeError], none⟩
  | some h => ⟨[], some (200, h.rooms.map (fun r => roomFindById st r))⟩

/-- The per-name counts `countByCity` assembles with `Promise.all`. -/
def countByCityList (st : Store) (cities : List String) : List Nat :=
  cities.map (fun c => countDocumentsByCity st c)

/-- JavaScript `s.split(",")` on the characters of `s`: maximal runs of
non-comma characters; the empty string splits into one empty piece. -/
def splitCommaAux : List Char → List (List Char)
  | [] => [[]]
  | c :: rest =>
    match splitCommaAux rest with
    | [] => [[]]
    | s :: ss => if c = ',' then [] :: s :: ss else (c :: s) :: ss

/-- JavaScript `s.split(",")`. -/
def jsSplitComma (s : String) : List String :=
  (splitCommaAux s.data).map (fun l => String.mk l)

/-- `countByCity` (hotel.js): splits `req.query.cities` on commas and sends
one `countDocuments({city})` result per name, in order. -/
def countByCity (st : Store) (citiesParam : String) : HResult (List Nat) :=
  ⟨[], some (200, countByCityList st (jsSplitComma citiesParam))⟩

/-- `countByType` (hotel.js): five fixed `countDocuments({type})` queries
(singular type values), sent as five labelled counts (plural labels). -/
def countByType (st : Store) : HResult (List (String × Nat)) :=
  ⟨[], some (200,
    [("hotel", countDocumentsByType st "hotel"),
     ("apartments", countDocumentsByType st "apartment"),
     ("resorts", countDocumentsByType st "resort"),
     ("villas", countDocumentsByType st "villa"),
     ("cabins", countDocumentsByType st "cabin")])⟩

/-- A Hotel priced exactly at the lower bound the spec claims is inclusive. -/
def c1Hotel : Hotel := ⟨1, "H", "hotel", "Paris", 50, []⟩

/-- A store holding only `c1Hotel`. -/
def c1Store : Store := ⟨[c1Hotel], [], 2⟩

/-- A store with one Hotel owning two resolvable Rooms, listed in the
reverse of their insertion order. -/
def c3Store : Store :=
  ⟨[⟨1, "H", "hotel", "Paris", 10, [11, 10]⟩],
   [⟨10, "single", 20⟩, ⟨11, "double", 35⟩], 12⟩

/-- A Hotel owning the single Room id 2. -/
def c5Hotel : Hotel := ⟨1, "H", "hotel", "Paris", 10, [2]⟩

/-- The Room with id 2 owned by `c5Hotel`. -/
def c5Room : Room := ⟨2, "double", 30⟩

/-- A store holding `c5Hotel` and `c5Room`. -/
def c5Store : Store := ⟨[c5Hotel], [c5Room], 3⟩

/-- A store whose only Hotel lists the dangling Room id 5. -/
def c6Store : Store := ⟨[⟨1, "H", "hotel", "Paris", 10, [5]⟩], [], 6⟩

/-- A store with two Hotels in Paris and one in Tokyo. -/
def c7Store : Store :=
  ⟨[⟨1, "A", "hotel", "Paris", 10, []⟩, ⟨2, "B", "hotel", "Tokyo", 20, []⟩,
    ⟨3, "C", "hotel", "Paris", 30, []⟩], [], 4⟩

/-- Appending a Room whose id no stored Room carries makes `find?` by that
id return the appended Room. -/
theorem find_rid_append_fresh (rs : List Room) (r : Room)
    (hne : ∀ x ∈ rs, x.rid ≠ r.rid) :
    (rs ++ [r]).find? (fun x => x.rid == r.rid) = some r := by
  induction rs with
  | nil => simp
  | cons a tl ih =>
    have ha : (a.rid == r.rid) = false := by
      simpa using hne a (List.mem_cons_self a tl)
    simp only [List.cons_append, List.find?_cons, ha]
    exact ih (fun x hx => hne x (List.mem_cons_of_mem a hx))

/-- On a store with fresh ids, a saved Room can be looked up again. -/
theorem roomFindById_roomSave (st : Store) (b : RoomBody)
    (hfresh : Store.freshIds st) :
    roomFindById (roomSave st b).1 (roomSave st b).2.rid = some (roomSave st b).2 := by
  unfold roomFindById roomSave
  exact find_rid_append_fresh st.rooms _ (fun x hx => Nat.ne_of_lt (hfresh x hx))

/-- A conditional map keyed on a Hotel id no stored Hotel carries is the
identity. -/
theorem map_if_hid_self (hs : List Hotel) (id : Nat) (f : Hotel → Hotel)
    (hall : ∀ x ∈ hs, ¬ x.hid = id) :
    hs.map (fun x => if x.hid = id then f x else x) = hs := by
  induction hs with
  | nil => rfl
  | cons a tl ih =>
    simp only [List.map_cons, if_neg (hall a (List.mem_cons_self a tl))]
    rw [ih (fun x hx => hall x (List.mem_cons_of_mem a hx))]

/-- `find?` by Hotel id commutes with an id-preserving conditional map. -/
theorem find_hid_map (hs : List Hotel) (id : Nat) (f : Hotel → Hotel)
    (hf : ∀ x, (f x).hid = x.hid) :
    (hs.map (fun x => if x.hid = id then f x else x)).find? (fun x => x.hid == id) =
      (hs.find? (fun x => x.hid == id)).map (fun x => if x.hid = id then f x else x) := by
  induction hs with
  | nil => rfl
  | cons a tl ih =>
    by_cases ha : a.hid = id
    · have h0 : (if a.hid = id then f a else a) = f a := if_pos ha
      simp only [List.map_cons, h0, List.find?_cons]
      have hp : ((f a).hid == id) = true := by simp [hf, ha]
      have hq : (a.hid == id) = true := by simp [ha]
      rw [hp, hq]
      simp [h0]
    · have h0 : (if a.hid = id then f a else a) = a := if_neg ha
      simp only [List.map_cons, h0, List.find?_cons]
      have hq : (a.hid == id) = false := by simp [ha]
      rw [hq]
      simpa using ih

/-- Claim C8: `countByType` on the empty store sends exactly the five
labelled counts hotel, apartments, resorts, villas, cabins, each 0, and
nothing else. -/
theorem countByType_empty_store :
    countByType emptyStore =
      ⟨[], some (200, [("hotel", 0), ("apartments", 0), ("resorts", 0),
        ("villas", 0), ("cabins", 0)])⟩ := by decide

/-- Claim C9: the lower price bound of `getHotels` is the bitwise-or
fallback `min | 1`; on the spec's inputs it yields 1 for the string "abc",
15 for the string "15", and 1 for the explicit number 0. -/
theorem getHotels_lower_bound_bitor :
    (∀ mn : QueryVal, getHotelsLowerBound mn = jsBitOr (toInt32 (jsToNumber mn)) 1) ∧
    getHotelsLowerBound (QueryVal.str "abc") = 1 ∧
    getHotelsLowerBound (QueryVal.str "15") = 15 ∧
    getHotelsLowerBound (QueryVal.num 0) = 1 :=
  ⟨fun _ => rfl, by decide, by decide, by decide⟩

/-- Counterexample to claim C1: a Hotel with `cheapestPrice = 50` sits
inside the claimed closed range [50, 150], yet
`getHotels` with `min = 50`, `max = 150` returns the empty list. -/
theorem getHotels_closed_range_counterexample :
    (50 ≤ c1Hotel.cheapestPrice ∧ c1Hotel.cheapestPrice ≤ 150) ∧
    c1Store.hotels = [c1Hotel] ∧
    getHotels c1Store (QueryVal.num 50) (QueryVal.num 150) = ⟨[], some (200, [])⟩ := by
  decide

/-- Claim C1 as amended: `getHotels` with `min = 50`, `max = 150` returns
exactly the Hotels with `51 < cheapestPrice < 150` (both bounds strict, the
lower one being `50 | 1 = 51`), and with both bounds absent exactly those
with `1 < cheapestPrice < 999`. -/
theorem getHotels_strict_range (st : Store) :
    getHotels st (QueryVal.num 50) (QueryVal.num 150) =
      ⟨[], some (200, st.hotels.filter (fun h =>
        decide (51 < h.cheapestPrice) && decide (h.cheapestPrice < 150)))⟩ ∧
    getHotels st QueryVal.undef QueryVal.undef =
      ⟨[], some (200, st.hotels.filter (fun h =>
        decide (1 < h.cheapestPrice) && decide (h.cheapestPrice < 999)))⟩ := by
  have h50 : getHotelsLowerBound (QueryVal.num 50) = 51 := by decide
  have hu : getHotelsLowerBound QueryVal.undef = 1 := by decide
  constructor
  · have hdef : getHotels st (QueryVal.num 50) (QueryVal.num 150) =
        ⟨[], some (200, st.hotels.filter (fun h =>
          decide (getHotelsLowerBound (QueryVal.num 50) < h.cheapestPrice) &&
          decide (h.cheapestPrice < (150 : Int))))⟩ := rfl
    rw [hdef, h50]
  · have hdef : getHotels st QueryVal.undef QueryVal.undef =
        ⟨[], some (200, st.hotels.filter (fun h =>
          decide (getHotelsLowerBound QueryVal.undef < h.cheapestPrice) &&
          decide (h.cheapestPrice < (999 : Int))))⟩ := rfl
    rw [hdef, hu]

/-- Claim C2: `createRoom` persists the Room first and links it to the
Hotel afterwards (the success-path store is the link write applied to the
saved store); when the link write fails after the save, the failure goes to
`next` while the saved Room is still sent as the 200 response and remains
stored. -/
theorem createRoom_persists_then_links (st : Store) (hotelId : Nat) (b : RoomBody)
    (hfresh : Store.freshIds st) :
    ((createRoom st hotelId b false false).1 =
        hotelPushRoom (roomSave st b).1 hotelId (roomSave st b).2.rid ∧
      (createRoom st hotelId b false false).2 = ⟨[], some (200, (roomSave st b).2)⟩) ∧
    ((createRoom st hotelId b false true).2.errs = [HandlerErr.persistenceFailure] ∧
      (createRoom st hotelId b false true).2.resp = some (200, (roomSave st b).2) ∧
      roomFindById (createRoom st hotelId b false true).1 (roomSave st b).2.rid =
        some (roomSave st b).2) :=
  ⟨⟨rfl, rfl⟩, ⟨rfl, rfl, roomFindById_roomSave st b hfresh⟩⟩

/-- Witness for claim C2 at the empty store. -/
theorem createRoom_persists_then_links_witness :
    Store.freshIds emptyStore ∧
    (((createRoom emptyStore 7 ⟨"suite", 80⟩ false false).1 =
        hotelPushRoom (roomSave emptyStore ⟨"suite", 80⟩).1 7
          (roomSave emptyStore ⟨"suite", 80⟩).2.rid ∧
      (createRoom emptyStore 7 ⟨"suite", 80⟩ false false).2 =
        ⟨[], some (200, (roomSave emptyStore ⟨"suite", 80⟩).2)⟩) ∧
    ((createRoom emptyStore 7 ⟨"suite", 80⟩ false true).2.errs =
        [HandlerErr.persistenceFailure] ∧
      (createRoom emptyStore 7 ⟨"suite", 80⟩ false true).2.resp =
        some (200, (roomSave emptyStore ⟨"suite", 80⟩).2) ∧
      roomFindById (createRoom emptyStore 7 ⟨"suite", 80⟩ false true).1
          (roomSave emptyStore ⟨"suite", 80⟩).2.rid =
        some (roomSave emptyStore ⟨"suite", 80⟩).2)) :=
  ⟨by decide, createRoom_persists_then_links emptyStore 7 ⟨"suite", 80⟩ (by decide)⟩

/-- Claim C10: `createRoom` against a Hotel id that matches no stored Hotel
still persists and returns the Room with status 200, forwards no error, and
leaves every Hotel document unchanged. -/
theorem createRoom_missing_hotel_silent (st : Store) (hotelId : Nat) (b : RoomBody)
    (hfresh : Store.freshIds st) (hmiss : hotelFindById st hotelId = none) :
    (createRoom st hotelId b false false).2.errs = [] ∧
    (createRoom st hotelId b false false).2.resp = some (200, (roomSave st b).2) ∧
    roomFindById (createRoom st hotelId b false false).1 (roomSave st b).2.rid =
      some (roomSave st b).2 ∧
    (createRoom st hotelId b false false).1.hotels = st.hotels := by
  have hall : ∀ h ∈ st.hotels, ¬ h.hid = hotelId := by
    intro h hh
    have hnp := List.find?_eq_none.mp hmiss h hh
    simpa using hnp
  refine ⟨rfl, rfl, ?_, ?_⟩
  · exact roomFindById_roomSave st b hfresh
  · show (hotelPushRoom (roomSave st b).1 hotelId (roomSave st b).2.rid).hotels = st.hotels
    unfold hotelPushRoom roomSave
    exact map_if_hid_self st.hotels hotelId _ hall

/-- Witness for claim C10 at the empty store. -/
theorem createRoom_missing_hotel_silent_witness :
    Store.freshIds emptyStore ∧ hotelFindById emptyStore 7 = none ∧
    ((createRoom emptyStore 7 ⟨"twin", 40⟩ false false).2.errs = [] ∧
      (createRoom emptyStore 7 ⟨"twin", 40⟩ false false).2.resp =
        some (200, (roomSave emptyStore ⟨"twin", 40⟩).2) ∧
      roomFindById (createRoom emptyStore 7 ⟨"twin", 40⟩ false false).1
          (roomSave emptyStore ⟨"twin", 40⟩).2.rid =
        some (roomSave emptyStore ⟨"twin", 40⟩).2 ∧
      (createRoom emptyStore 7 ⟨"twin", 40⟩ false false).1.hotels = emptyStore.hotels) :=
  ⟨by decide, by decide,
    createRoom_missing_hotel_silent emptyStore 7 ⟨"twin", 40⟩ (by decide) (by decide)⟩

/-- Claim C3: when the Hotel exists and each id in its `rooms` list
resolves, `getHotelRooms` sends a 200 list of the same length whose i-th
element is the Room carrying the i-th id of `rooms`. -/
theorem getHotelRooms_preserves_order (st : Store) (id : Nat) (h : Hotel)
    (hh : hotelFindById st id = some h)
    (hres : ∀ r ∈ h.rooms, (roomFindById st r).isSome) :
    ∃ l, getHotelRooms st id = ⟨[], some (200, l)⟩ ∧
      l.length = h.rooms.length ∧
      ∀ i, i < h.rooms.length →
        ∃ rm, l[i]? = some (some rm) ∧ h.rooms[i]? = some rm.rid ∧
          roomFindById st rm.rid = some rm := by
  refine ⟨h.rooms.map (fun r => roomFindById st r), ?_, by simp, ?_⟩
  · unfold getHotelRooms; rw [hh]
  · intro i hi
    have hr : h.rooms[i]? = some (h.rooms.get ⟨i, hi⟩) := List.getElem?_eq_getElem hi
    have hsome : (roomFindById st (h.rooms.get ⟨i, hi⟩)).isSome :=
      hres _ (List.get_mem _ _ _)
    obtain ⟨rm, hrm⟩ := Option.isSome_iff_exists.mp hsome
    have hrid : rm.rid = h.rooms.get ⟨i, hi⟩ := by
      have hp := List.find?_some hrm
      simpa using hp
    refine ⟨rm, ?_, ?_, ?_⟩
    · rw [List.getElem?_map _ _ _, hr]
      simpa using hrm
    · rw [hr, hrid]
    · rw [hrid]; exact hrm

/-- Witness for claim C3 at a two-Room store. -/
theorem getHotelRooms_preserves_order_witness :
    hotelFindById c3Store 1 = some ⟨1, "H", "hotel", "Paris", 10, [11, 10]⟩ ∧
    (∃ l, getHotelRooms c3Store 1 = ⟨[], some (200, l)⟩ ∧
      l.length = (Hotel.mk 1 "H" "hotel" "Paris" 10 [11, 10]).rooms.length ∧
      ∀ i, i < (Hotel.mk 1 "H" "hotel" "Paris" 10 [11, 10]).rooms.length →
        ∃ rm, l[i]? = some (some rm) ∧
          (Hotel.mk 1 "H" "hotel" "Paris" 10 [11, 10]).rooms[i]? = some rm.rid ∧
          roomFindById c3Store rm.rid = some rm) :=
  ⟨by decide,
    getHotelRooms_preserves_order c3Store 1 ⟨1, "H", "hotel", "Paris", 10, [11, 10]⟩
      (by decide) (by decide)⟩

/-- Counterexample to claim C6: Room id 5 of the stored Hotel is dangling,
yet `getHotelRooms` does not abort — it sends status 200 with null in that
position. -/
theorem getHotelRooms_dangling_counterexample :
    roomFindById c6Store 5 = none ∧
    hotelFindById c6Store 1 = some ⟨1, "H", "hotel", "Paris", 10, [5]⟩ ∧
    getHotelRooms c6Store 1 = ⟨[], some (200, [none])⟩ := by decide

/-- Claim C6 as amended: when the Hotel exists, `getHotelRooms` always
succeeds with a full-length 200 list; a dangling id yields null at its own
position instead of aborting the call. -/
theorem getHotelRooms_dangling_yields_null (st : Store) (id : Nat) (h : Hotel)
    (hh : hotelFindById st id = some h) :
    ∃ l, getHotelRooms st id = ⟨[], some (200, l)⟩ ∧
      l.length = h.rooms.length ∧
      ∀ (i : Nat) (r : Nat), h.rooms[i]? = some r → roomFindById st r = none →
        l[i]? = some none := by
  refine ⟨h.rooms.map (fun r => roomFindById st r), ?_, by simp, ?_⟩
  · unfold getHotelRooms; rw [hh]
  · intro i r hr hnone
    rw [List.getElem?_map _ _ _, hr]
    simp [hnone]

/-- Witness for the amended claim C6 at the dangling-reference store. -/
theorem getHotelRooms_dangling_yields_null_witness :
    hotelFindById c6Store 1 = some ⟨1, "H", "hotel", "Paris", 10, [5]⟩ ∧
    (∃ l, getHotelRooms c6Store 1 = ⟨[], some (200, l)⟩ ∧
      l.length = (Hotel.mk 1 "H" "hotel" "Paris" 10 [5]).rooms.length ∧
      ∀ (i : Nat) (r : Nat), (Hotel.mk 1 "H" "hotel" "Paris" 10 [5]).rooms[i]? = some r →
        roomFindById c6Store r = none → l[i]? = some none) :=
  ⟨by decide,
    getHotelRooms_dangling_yields_null c6Store 1 ⟨1, "H", "hotel", "Paris", 10, [5]⟩
      (by decide)⟩

/-- Counterexample to claim C4: on a store without id 0, `getHotel`,
`updateHotel`, `deleteHotel` and `getRoom` all send a 200 success (null
body, or the fixed deletion message) and forward no NotFound error. -/
theorem missing_id_no_notfound_counterexample :
    HandlerErr.notFound ∉ (getHotel emptyStore 0).errs ∧
    (getHotel emptyStore 0).resp = some (200, none) ∧
    HandlerErr.notFound ∉ (updateHotel emptyStore 0 ⟨none, none⟩).2.errs ∧
    (updateHotel emptyStore 0 ⟨none, none⟩).2.resp = some (200, none) ∧
    HandlerErr.notFound ∉ (deleteHotel emptyStore 0).2.errs ∧
    (deleteHotel emptyStore 0).2.resp = some (200, "Hotel has been deleted") ∧
    HandlerErr.notFound ∉ (getRoom emptyStore 0).errs ∧
    (getRoom emptyStore 0).resp = some (200, none) := by decide

/-- Claim C4 as amended: for an id matching no stored document, `getHotel`
and `getRoom` send 200 with null, `updateHotel` sends 200 with null leaving
the store unchanged, and `deleteHotel` sends its 200 success message
leaving the store unchanged; none of them fails with NotFound. -/
theorem missing_id_returns_success (st : Store) (id : Nat) (p : HotelPatch)
    (hh : hotelFindById st id = none) (hr : roomFindById st id = none) :
    getHotel st id = ⟨[], some (200, none)⟩ ∧
    (updateHotel st id p).2 = ⟨[], some (200, none)⟩ ∧
    (updateHotel st id p).1 = st ∧
    (deleteHotel st id).2 = ⟨[], some (200, "Hotel has been deleted")⟩ ∧
    (deleteHotel st id).1 = st ∧
    getRoom st id = ⟨[], some (200, none)⟩ := by
  have hall : ∀ x ∈ st.hotels, ¬ x.hid = id := by
    intro x hx
    simpa using List.find?_eq_none.mp hh x hx
  have hmap : st.hotels.map (fun x => if x.hid = id then applyPatch p x else x) = st.hotels :=
    map_if_hid_self st.hotels id (applyPatch p) hall
  have hst1 : (updateHotel st id p).1 = st := by
    show ({ st with hotels := st.hotels.map (fun x => if x.hid = id then applyPatch p x else x) } : Store) = st
    rw [hmap]
  have hfil : st.hotels.filter (fun x => x.hid != id) = st.hotels := by
    apply List.filter_eq_self.mpr
    intro x hx
    simpa using hall x hx
  have hdel : (deleteHotel st id).1 = st := by
    show ({ st with hotels := st.hotels.filter (fun x => x.hid != id) } : Store) = st
    rw [hfil]
  refine ⟨?_, ?_, hst1, rfl, hdel, ?_⟩
  · unfold getHotel; rw [hh]
  · show (⟨[], some (200, hotelFindById (updateHotel st id p).1 id)⟩ : HResult (Option Hotel)) = _
    rw [hst1, hh]
  · unfold getRoom; rw [hr]

/-- Witness for the amended claim C4 at the empty store. -/
theorem missing_id_returns_success_witness :
    hotelFindById emptyStore 0 = none ∧ roomFindById emptyStore 0 = none ∧
    (getHotel emptyStore 0 = ⟨[], some (200, none)⟩ ∧
      (updateHotel emptyStore 0 ⟨some "Lyon", some 77⟩).2 = ⟨[], some (200, none)⟩ ∧
      (updateHotel emptyStore 0 ⟨some "Lyon", some 77⟩).1 = emptyStore ∧
      (deleteHotel emptyStore 0).2 = ⟨[], some (200, "Hotel has been deleted")⟩ ∧
      (deleteHotel emptyStore 0).1 = emptyStore ∧
      getRoom emptyStore 0 = ⟨[], some (200, none)⟩) :=
  ⟨by decide, by decide,
    missing_id_returns_success emptyStore 0 ⟨some "Lyon", some 77⟩ (by decide) (by decide)⟩

/-- Counterexample to claim C5: after a fully successful `deleteRoom` of
Room 2, `getRoom 2` does not fail with NotFound — it sends 200 with null. -/
theorem deleteRoom_no_notfound_counterexample :
    c5Hotel.rooms = [2] ∧
    (deleteRoom c5Store 1 2 false false).2 = ⟨[], some (200, "Room has been deleted")⟩ ∧
    HandlerErr.notFound ∉ (getRoom (deleteRoom c5Store 1 2 false false).1 2).errs ∧
    (getRoom (deleteRoom c5Store 1 2 false false).1 2).resp = some (200, none) := by
  decide

/-- Claim C5 as amended: after `deleteRoom` succeeds, the Room is gone from
the store, a subsequent `getRoom` sends 200 with null (not NotFound), and
the owning Hotel's `rooms` list no longer contains the id. -/
theorem deleteRoom_removes_and_unlinks (st : Store) (hid rid : Nat) (h : Hotel)
    (hh : hotelFindById st hid = some h) :
    roomFindById (deleteRoom st hid rid false false).1 rid = none ∧
    getRoom (deleteRoom st hid rid false false).1 rid = ⟨[], some (200, none)⟩ ∧
    ∃ h1, hotelFindById (deleteRoom st hid rid false false).1 hid = some h1 ∧
      rid ∉ h1.rooms := by
  have hnone : roomFindById (deleteRoom st hid rid false false).1 rid = none := by
    show (st.rooms.filter (fun r => r.rid != rid)).find? (fun r => r.rid == rid) = none
    apply List.find?_eq_none.mpr
    intro x hx
    have hx2 := (List.mem_filter.mp hx).2
    simpa using hx2
  have hhid : h.hid = hid := by
    simpa using List.find?_some hh
  refine ⟨hnone, ?_, ?_⟩
  · unfold getRoom; rw [hnone]
  · refine ⟨{ h with rooms := h.rooms.filter (fun x => x != rid) }, ?_, ?_⟩
    · show (st.hotels.map (fun x =>
          if x.hid = hid then { x with rooms := x.rooms.filter (fun y => y != rid) } else x)).find?
            (fun x => x.hid == hid) = _
      rw [find_hid_map st.hotels hid
        (fun x => { x with rooms := x.rooms.filter (fun y => y != rid) }) (fun x => rfl)]
      unfold hotelFindById at hh
      rw [hh]
      simp [if_pos hhid]
    · intro hmem
      have hx2 := (List.mem_filter.mp hmem).2
      simp at hx2

/-- Witness for the amended claim C5 at the one-Hotel one-Room store. -/
theorem deleteRoom_removes_and_unlinks_witness :
    hotelFindById c5Store 1 = some c5Hotel ∧
    (roomFindById (deleteRoom c5Store 1 2 false false).1 2 = none ∧
      getRoom (deleteRoom c5Store 1 2 false false).1 2 = ⟨[], some (200, none)⟩ ∧
      ∃ h1, hotelFindById (deleteRoom c5Store 1 2 false false).1 1 = some h1 ∧
        2 ∉ h1.rooms) :=
  ⟨by decide, deleteRoom_removes_and_unlinks c5Store 1 2 c5Hotel (by decide)⟩

/-- Claim C7: `countByCity` sends one count per comma-separated input name,
positionally: the list has one entry per name, the entry at position i is
the count of Hotels whose city equals the i-th name, and equal names (also
duplicates) yield equal counts at their positions. -/
theorem countByCity_positional (st : Store) (q : String) :
    ∃ l, countByCity st q = ⟨[], some (200, l)⟩ ∧
      l.length = (jsSplitComma q).length ∧
      (∀ (i : Nat) (c : String), (jsSplitComma q)[i]? = some c →
        l[i]? = some (countDocumentsByCity st c)) ∧
      (∀ i j : Nat, (jsSplitComma q)[i]? = (jsSplitComma q)[j]? → l[i]? = l[j]?) := by
  refine ⟨countByCityList st (jsSplitComma q), rfl, by simp [countByCityList], ?_, ?_⟩
  · intro i c hc
    unfold countByCityList
    rw [List.getElem?_map _ _ _, hc]
    rfl
  · intro i j hij
    unfold countByCityList
    rw [List.getElem?_map _ _ _, List.getElem?_map _ _ _, hij]

/-- Witness for claim C7 on the query string with a duplicated name; the
response is the positionally duplicated count list. -/
theorem countByCity_positional_witness :
    (∃ l, countByCity c7Store "Paris,Paris,Tokyo" = ⟨[], some (200, l)⟩ ∧
      l.length = (jsSplitComma "Paris,Paris,Tokyo").length ∧
      (∀ (i : Nat) (c : String), (jsSplitComma "Paris,Paris,Tokyo")[i]? = some c →
        l[i]? = some (countDocumentsByCity c7Store c)) ∧
      (∀ i j : Nat, (jsSplitComma "Paris,Paris,Tokyo")[i]? = (jsSplitComma "Paris,Paris,Tokyo")[j]? →
        l[i]? = l[j]?)) ∧
    countByCity c7Store "Paris,Paris,Tokyo" = ⟨[], some (200, [2, 2, 1])⟩ :=
  ⟨countByCity_positional c7Store "Paris,Paris,Tokyo", by decide⟩

end Booking
